import Mathlib

/-!
Verification of the tennis/padel match-scoring engine of the scoreboard
application.  The definitions below are a shallow embedding of the scoring
code of the `Scoreboard` component (`addPoint`, `removePoint`, the two
server-switching code paths and the settings-screen `handleReset`), together
with the parts of the data model they read (`Team`, `GameSettings`).

React `useState` functional updates are applied in call order to independent
`team1`/`team2` atoms; the embedding therefore models each operation as a
pure function from the pair of team records (plus the immutable settings) to
a new pair, reading the pre-call snapshot exactly where the source closure
does.
-/

namespace Scoreboard

/-- The point ladder of a game: the source stores it as the string union
`'0' | '15' | '30' | '40' | 'Ad'`. -/
inductive PointScore where
  | p0
  | p15
  | p30
  | p40
  | adv
deriving DecidableEq, Repr

/-- The mutable per-team score record (`Team` in `App.tsx`), restricted to
the fields the scoring operations read or write.  The remaining fields
(`name`, `logo`, `players`) are carried unchanged through every modeled
operation by the source's record spreads and are omitted. -/
structure Team where
  points : PointScore
  games : Nat
  sets : Nat
  tiebreakPoints : Nat
  isServing : Bool
deriving DecidableEq, Repr

/-- The match-format part of `GameSettings` in `App.tsx`.  Only `sets` is
ever read by the scoring code; the three rule flags are carried so that
claims about them can be stated. -/
structure GameSettings where
  sets : Nat
  tiebreak : Bool
  championshipTiebreak : Bool
  goldenPoint : Bool
deriving DecidableEq, Repr

/-- The pair of team records the scoring component owns. -/
structure MatchState where
  team1 : Team
  team2 : Team
deriving DecidableEq, Repr

/-- Team selector, the runtime values `'team1'` and `'team2'`. -/
inductive TeamSel where
  | team1
  | team2
deriving DecidableEq, Repr

/-- The opponent of a selector. -/
def TeamSel.other : TeamSel → TeamSel
  | .team1 => .team2
  | .team2 => .team1

/-- Read the selected team's record (the `team === 'team1' ? team1 : team2`
ternary of the source). -/
def MatchState.get (st : MatchState) : TeamSel → Team
  | .team1 => st.team1
  | .team2 => st.team2

/-- Write the selected team's record and its opponent's record. -/
def MatchState.setBoth (st : MatchState) (t : TeamSel) (cur oth : Team) :
    MatchState :=
  match t with
  | .team1 => { st with team1 := cur, team2 := oth }
  | .team2 => { st with team2 := cur, team1 := oth }

/-- `Math.ceil(settings.sets / 2)`: the number of sets needed to win the
match. -/
def winThreshold (sets : Nat) : Nat := (sets + 1) / 2

/-- Outcome of the point-ladder branch of `addPoint`: the awarded team's new
`points` and `games`, the opponent's new `points`, and whether the serving
flags are flipped (they are exactly on a game win). -/
structure StepResult where
  newPoints : PointScore
  newGames : Nat
  otherPoints : PointScore
  switchServe : Bool
deriving DecidableEq, Repr

/-- The `if`/`else if` ladder of `addPoint` (lines 314-349 of the source):
0→15→30→40; from 40: cancel the opponent's advantage, or move to advantage
at deuce, or win the game; from advantage: win the game.  A game win
increments `games`, resets both `points` to 0 and flips both serving
flags. -/
def pointStep (cur oth : Team) : StepResult :=
  match cur.points with
  | .p0 => ⟨.p15, cur.games, oth.points, false⟩
  | .p15 => ⟨.p30, cur.games, oth.points, false⟩
  | .p30 => ⟨.p40, cur.games, oth.points, false⟩
  | .p40 =>
    match oth.points with
    | .adv => ⟨.p40, cur.games, .p40, false⟩
    | .p40 => ⟨.adv, cur.games, .p40, false⟩
    | _ => ⟨.p0, cur.games + 1, .p0, true⟩
  | .adv => ⟨.p0, cur.games + 1, .p0, true⟩

/-- The set-completion test of `addPoint` (lines 351-353 of the source):
`newGames >= 6 && (newGames >= otherTeam.games + 2 || (newGames === 7 &&
otherTeam.games === 5))`, with `otherTeam.games` read from the pre-call
snapshot. -/
def setWonCheck (newGames othGames : Nat) : Bool :=
  6 ≤ newGames && (othGames + 2 ≤ newGames || (newGames == 7 && othGames == 5))

/-- `addPoint` of the `Scoreboard` component.  Returns the input unchanged
when the awarded team's `sets` has reached the win threshold; otherwise runs
the point ladder, then the set-completion check, and assembles the queued
`setTeam1`/`setTeam2` updates (which commute field-wise). -/
def addPoint (settings : GameSettings) (st : MatchState) (team : TeamSel) :
    MatchState :=
  let currentTeam := st.get team
  let otherTeam := st.get team.other
  if winThreshold settings.sets ≤ currentTeam.sets then st
  else
    let r := pointStep currentTeam otherTeam
    let setWon := setWonCheck r.newGames otherTeam.games
    let newCurrent : Team :=
      { currentTeam with
          points := if setWon then .p0 else r.newPoints
          games := if setWon then 0 else r.newGames
          sets := if setWon then currentTeam.sets + 1 else currentTeam.sets
          isServing :=
            if r.switchServe then !currentTeam.isServing
            else currentTeam.isServing }
    let newOther : Team :=
      { otherTeam with
          points := if setWon then .p0 else r.otherPoints
          games := if setWon then 0 else otherTeam.games
          isServing :=
            if r.switchServe then !otherTeam.isServing
            else otherTeam.isServing }
    st.setBoth team newCurrent newOther

/-- At runtime the selector is a string and every value other than
`"team1"` selects team 2: each of the source's ternaries is
`team === 'team1' ? <team1 thing> : <team2 thing>`.  The function is total;
no error path exists in the source. -/
def addPointStr (settings : GameSettings) (st : MatchState) (team : String) :
    MatchState :=
  addPoint settings st (if team = "team1" then .team1 else .team2)

/-- `removePoint` of the `Scoreboard` component (lines 373-386): a single
functional update of the selected team that walks the ladder backwards
(15→0, 30→15, 40→30, Ad→40) and leaves every other field, and the whole
opponent record, untouched. -/
def removePoint (st : MatchState) (team : TeamSel) : MatchState :=
  let t := st.get team
  let newPoints : PointScore :=
    match t.points with
    | .p15 => .p0
    | .p30 => .p15
    | .p40 => .p30
    | .adv => .p40
    | .p0 => t.points
  st.setBoth team { t with points := newPoints } (st.get team.other)

/-- The gesture-driven server switch (`handleGesture`, case 5): flips each
team's `isServing` independently. -/
def switchServerGesture (st : MatchState) : MatchState :=
  { st with
      team1 := { st.team1 with isServing := !st.team1.isServing }
      team2 := { st.team2 with isServing := !st.team2.isServing } }

/-- The Scoreboard "Switch Server" button: `newServing = !team1.isServing`,
then `team1.isServing := newServing` and `team2.isServing := !newServing`. -/
def switchServerButton (st : MatchState) : MatchState :=
  let newServing := !st.team1.isServing
  { st with
      team1 := { st.team1 with isServing := newServing }
      team2 := { st.team2 with isServing := !newServing } }

/-- `handleReset` of `Settings.tsx` (lines 26-43): zeroes `sets`, `games`,
`points` and `tiebreakPoints` of both teams and assigns the serve: team 1
serving, team 2 not. -/
def handleReset (st : MatchState) : MatchState :=
  { st with
      team1 :=
        { st.team1 with
            sets := 0, games := 0, points := .p0, tiebreakPoints := 0
            isServing := true }
      team2 :=
        { st.team2 with
            sets := 0, games := 0, points := .p0, tiebreakPoints := 0
            isServing := false } }

/-- The match is complete when some team's `sets` has reached the win
threshold (this is the guard of `addPoint` applied to both teams). -/
def isMatchComplete (settings : GameSettings) (st : MatchState) : Bool :=
  winThreshold settings.sets ≤ st.team1.sets ||
    winThreshold settings.sets ≤ st.team2.sets

/-- The initial match state of `App.tsx`: both teams at zero, team 1
serving. -/
def initialState : MatchState :=
  { team1 := ⟨.p0, 0, 0, 0, true⟩, team2 := ⟨.p0, 0, 0, 0, false⟩ }

end Scoreboard

namespace Scoreboard

/-- A best-of-3 configuration (the application default: `sets: 3`,
`tiebreak: true`, `championshipTiebreak: true`, `goldenPoint: false`). -/
def cfg3 : GameSettings := ⟨3, true, true, false⟩

/-- C1, counterexample: with `sets = 3` (threshold 2) and team 2 already
holding 2 sets, awarding a point to team 1 still mutates the state (team 1's
points move to 15), so reaching the threshold on *either* side does not
freeze `addPoint`. -/
theorem C1_counterexample :
    winThreshold cfg3.sets ≤
      (MatchState.mk ⟨.p0, 0, 0, 0, true⟩ ⟨.p0, 0, 2, 0, false⟩).team2.sets ∧
    addPoint cfg3 (MatchState.mk ⟨.p0, 0, 0, 0, true⟩ ⟨.p0, 0, 2, 0, false⟩)
        .team1 ≠
      MatchState.mk ⟨.p0, 0, 0, 0, true⟩ ⟨.p0, 0, 2, 0, false⟩ := by
  decide

/-- C1, amended: `addPoint` is a no-op exactly when the *awarded* team's
`sets` has reached the win threshold; every field of both teams is then
unchanged. -/
theorem C1_awarded_team_at_threshold_is_noop (settings : GameSettings)
    (st : MatchState) (t : TeamSel)
    (h : winThreshold settings.sets ≤ (st.get t).sets) :
    addPoint settings st t = st := by
  unfold addPoint
  simp [h]

/-- C1, witness for the amended theorem at a concrete frozen state. -/
theorem C1_witness :
    addPoint cfg3 (MatchState.mk ⟨.p0, 0, 2, 0, true⟩ ⟨.p0, 0, 1, 0, false⟩)
        .team1 =
      MatchState.mk ⟨.p0, 0, 2, 0, true⟩ ⟨.p0, 0, 1, 0, false⟩ :=
  C1_awarded_team_at_threshold_is_noop cfg3
    (MatchState.mk ⟨.p0, 0, 2, 0, true⟩ ⟨.p0, 0, 1, 0, false⟩) .team1
    (by decide)

/-- C6: `removePoint` only rewrites the selected team's `points`, walking
the ladder backwards (Ad→40, 40→30, 30→15, 15→0, no-op at 0); the
opponent's record and the selected team's `games`, `sets`, `tiebreakPoints`
and `isServing` are untouched.  In particular, immediately after a
game-winning `addPoint` the game count is not restored: it equals the
post-award game count. -/
theorem C6_removePoint_point_level_undo (settings : GameSettings)
    (st : MatchState) (t : TeamSel) :
    (removePoint st t).get t.other = st.get t.other ∧
    ((removePoint st t).get t).games = (st.get t).games ∧
    ((removePoint st t).get t).sets = (st.get t).sets ∧
    ((removePoint st t).get t).tiebreakPoints = (st.get t).tiebreakPoints ∧
    ((removePoint st t).get t).isServing = (st.get t).isServing ∧
    ((removePoint st t).get t).points =
      (match (st.get t).points with
        | .adv => .p40
        | .p40 => .p30
        | .p30 => .p15
        | .p15 => .p0
        | .p0 => .p0) ∧
    ((removePoint (addPoint settings st t) t).get t).games =
      ((addPoint settings st t).get t).games := by
  obtain ⟨t1, t2⟩ := st
  cases t <;>
    refine ⟨rfl, rfl, rfl, rfl, rfl, ?_, rfl⟩ <;>
      · cases h : t1.points <;> cases h2 : t2.points <;>
          simp [removePoint, MatchState.get, MatchState.setBoth, TeamSel.other,
            h, h2]

/-- C7, counterexample: `handleReset` does not preserve the serving flags:
from a state where team 2 is serving it reassigns the serve to team 1. -/
theorem C7_counterexample :
    (MatchState.mk ⟨.p30, 2, 1, 0, false⟩ ⟨.p15, 3, 0, 0, true⟩).team1.isServing
        = false ∧
    (handleReset
        (MatchState.mk ⟨.p30, 2, 1, 0, false⟩ ⟨.p15, 3, 0, 0, true⟩)).team1.isServing
        = true ∧
    (handleReset
        (MatchState.mk ⟨.p30, 2, 1, 0, false⟩ ⟨.p15, 3, 0, 0, true⟩)).team2.isServing
        = false := by
  decide

/-- C7, amended: `handleReset` returns both teams to `points = 0`,
`games = 0`, `sets = 0` (and `tiebreakPoints = 0`) and *reassigns* the
serve — team 1 serving, team 2 not — regardless of the prior flags. -/
theorem C7_reset_zeroes_scores_and_reassigns_serve (st : MatchState) :
    (handleReset st).team1.points = .p0 ∧ (handleReset st).team1.games = 0 ∧
    (handleReset st).team1.sets = 0 ∧
    (handleReset st).team1.tiebreakPoints = 0 ∧
    (handleReset st).team2.points = .p0 ∧ (handleReset st).team2.games = 0 ∧
    (handleReset st).team2.sets = 0 ∧
    (handleReset st).team2.tiebreakPoints = 0 ∧
    (handleReset st).team1.isServing = true ∧
    (handleReset st).team2.isServing = false := by
  simp [handleReset]

/-- C8, counterexample: from a state where both teams' `isServing` flags
are `true`, the gesture-driven server switch (which flips each flag) leaves
both flags equal — afterwards *no* team is serving, not exactly one. -/
theorem C8_counterexample :
    (switchServerGesture
        (MatchState.mk ⟨.p0, 0, 0, 0, true⟩ ⟨.p0, 0, 0, 0, true⟩)).team1.isServing
        = false ∧
    (switchServerGesture
        (MatchState.mk ⟨.p0, 0, 0, 0, true⟩ ⟨.p0, 0, 0, 0, true⟩)).team2.isServing
        = false := by
  decide

/-- C8, amended: the Scoreboard button's server switch always ends with
exactly one team serving, for every prior state; the gesture-driven switch
merely flips both flags, so it preserves exclusivity when it already holds
but cannot establish it from a state with equal flags. -/
theorem C8_switch_server_exclusivity (st : MatchState) :
    (((switchServerButton st).team1.isServing = true ∧
        (switchServerButton st).team2.isServing = false) ∨
      ((switchServerButton st).team1.isServing = false ∧
        (switchServerButton st).team2.isServing = true)) ∧
    (st.team1.isServing ≠ st.team2.isServing →
      (switchServerGesture st).team1.isServing ≠
        (switchServerGesture st).team2.isServing) := by
  obtain ⟨⟨p1, g1, s1, b1, v1⟩, ⟨p2, g2, s2, b2, v2⟩⟩ := st
  cases v1 <;> cases v2 <;>
    simp [switchServerButton, switchServerGesture]

/-- C8, witness: the amended theorem applied at the initial state. -/
theorem C8_witness :
    (switchServerGesture initialState).team1.isServing ≠
      (switchServerGesture initialState).team2.isServing :=
  (C8_switch_server_exclusivity initialState).2 (by decide)

end Scoreboard

namespace Scoreboard

/-- C2: the golden-point rule flag is never consulted by the scoring code.
With `goldenPoint := true` and both teams at 40 (deuce), awarding a point to
team 1 grants Advantage (no game is won, `games` stays 0) — identical to the
`goldenPoint := false` behavior. -/
theorem C2_golden_point_ignored_at_deuce :
    (addPoint ⟨3, true, true, true⟩
        (MatchState.mk ⟨.p40, 0, 0, 0, true⟩ ⟨.p40, 0, 0, 0, false⟩)
        .team1).team1.points = .adv ∧
    (addPoint ⟨3, true, true, true⟩
        (MatchState.mk ⟨.p40, 0, 0, 0, true⟩ ⟨.p40, 0, 0, 0, false⟩)
        .team1).team1.games = 0 ∧
    addPoint ⟨3, true, true, true⟩
        (MatchState.mk ⟨.p40, 0, 0, 0, true⟩ ⟨.p40, 0, 0, 0, false⟩) .team1 =
      addPoint ⟨3, true, true, false⟩
        (MatchState.mk ⟨.p40, 0, 0, 0, true⟩ ⟨.p40, 0, 0, 0, false⟩) .team1 := by
  decide

/-- C9, counterexample: a selector string that is neither `"team1"` nor
`"team2"` raises no error and does mutate the state — the point is credited
to team 2. -/
theorem C9_counterexample :
    addPointStr cfg3 initialState "teamX" ≠ initialState ∧
    (addPointStr cfg3 initialState "teamX").team2.points = .p15 := by
  decide

/-- C9, amended: every selector other than `"team1"` (including invalid
ones) behaves exactly like `"team2"`: the point is awarded to team 2 and the
call never fails. -/
theorem C9_invalid_selector_acts_as_team2 (settings : GameSettings)
    (st : MatchState) (s : String) (h : s ≠ "team1") :
    addPointStr settings st s = addPoint settings st .team2 := by
  unfold addPointStr
  rw [if_neg h]

/-- C9, witness for the amended theorem at a concrete invalid selector. -/
theorem C9_witness :
    addPointStr cfg3 initialState "teamX" = addPoint cfg3 initialState .team2 :=
  C9_invalid_selector_acts_as_team2 cfg3 initialState "teamX" (by decide)

/-- C10: when the match is not complete, the awarded team's `points` is 0,
15 or 30, and its `games` is below 6, `removePoint` undoes `addPoint` for
the same team exactly, on every field of both teams. -/
theorem C10_removePoint_left_inverse (settings : GameSettings)
    (st : MatchState) (t : TeamSel)
    (hc : isMatchComplete settings st = false)
    (hp : (st.get t).points = .p0 ∨ (st.get t).points = .p15 ∨
      (st.get t).points = .p30)
    (hg : (st.get t).games < 6) :
    removePoint (addPoint settings st t) t = st := by
  obtain ⟨⟨p1, g1, s1, b1, v1⟩, ⟨p2, g2, s2, b2, v2⟩⟩ := st
  simp only [isMatchComplete, Bool.or_eq_false_iff, decide_eq_false_iff_not,
    Nat.not_le] at hc
  cases t <;>
    · simp only [MatchState.get, TeamSel.other] at hp hg
      rcases hp with hp | hp | hp <;>
        · subst hp
          simp [addPoint, pointStep, setWonCheck, removePoint, MatchState.get,
            MatchState.setBoth, TeamSel.other, Nat.not_le.2 hc.1,
            Nat.not_le.2 hc.2, Nat.not_le.2 hg]

/-- C10, witness at a concrete mid-game state. -/
theorem C10_witness :
    removePoint
        (addPoint cfg3
          (MatchState.mk ⟨.p15, 3, 1, 0, true⟩ ⟨.p40, 2, 0, 0, false⟩) .team1)
        .team1 =
      MatchState.mk ⟨.p15, 3, 1, 0, true⟩ ⟨.p40, 2, 0, 0, false⟩ :=
  C10_removePoint_left_inverse cfg3
    (MatchState.mk ⟨.p15, 3, 1, 0, true⟩ ⟨.p40, 2, 0, 0, false⟩) .team1
    (by decide) (by decide) (by decide)

end Scoreboard

namespace Scoreboard

/-- C5, counterexample: the transition claimed for every 40-40 state fails
on two families of states.  If the awarded team already holds the match
(2 sets under the best-of-3 config), `addPoint` is frozen and no Advantage
appears; and if the awarded team's game count already satisfies the
set-completion test (games = 8 here), the deuce point is swallowed by a set
win instead of producing Advantage. -/
theorem C5_counterexample :
    (addPoint cfg3
        (MatchState.mk ⟨.p40, 0, 2, 0, true⟩ ⟨.p40, 0, 0, 0, false⟩)
        .team1).team1.points ≠ .adv ∧
    (addPoint cfg3
        (MatchState.mk ⟨.p40, 8, 0, 0, true⟩ ⟨.p40, 0, 0, 0, false⟩)
        .team1).team1.points ≠ .adv ∧
    (addPoint cfg3
        (MatchState.mk ⟨.p40, 8, 0, 0, true⟩ ⟨.p40, 0, 0, 0, false⟩)
        .team1).team1.sets = 1 := by
  decide

/-- C5, amended: for every state in which the match is not complete, both
teams have fewer than 6 games, and both teams are at 40 (deuce; the golden
point flag is irrelevant, cf. C2): awarding a point to `t` yields `t` at
Advantage and the opponent at 40, with both teams' `games`, `sets` and
`isServing` unchanged; a further point to the opponent then restores the
original state exactly (both back at 40, no Advantage for the opponent). -/
theorem C5_deuce_advantage_cycle (settings : GameSettings) (st : MatchState)
    (t : TeamSel) (hc : isMatchComplete settings st = false)
    (hg1 : (st.get t).games < 6) (hg2 : (st.get t.other).games < 6)
    (hp1 : (st.get t).points = .p40) (hp2 : (st.get t.other).points = .p40) :
    ((addPoint settings st t).get t).points = .adv ∧
    ((addPoint settings st t).get t.other).points = .p40 ∧
    ((addPoint settings st t).get t).games = (st.get t).games ∧
    ((addPoint settings st t).get t.other).games = (st.get t.other).games ∧
    ((addPoint settings st t).get t).sets = (st.get t).sets ∧
    ((addPoint settings st t).get t.other).sets = (st.get t.other).sets ∧
    ((addPoint settings st t).get t).isServing = (st.get t).isServing ∧
    ((addPoint settings st t).get t.other).isServing =
      (st.get t.other).isServing ∧
    addPoint settings (addPoint settings st t) t.other = st := by
  obtain ⟨⟨p1, g1, s1, b1, v1⟩, ⟨p2, g2, s2, b2, v2⟩⟩ := st
  simp only [isMatchComplete, Bool.or_eq_false_iff, decide_eq_false_iff_not,
    Nat.not_le] at hc
  cases t <;>
    · simp only [MatchState.get, TeamSel.other] at hp1 hp2 hg1 hg2
      subst hp1
      subst hp2
      simp [addPoint, pointStep, setWonCheck, MatchState.get,
        MatchState.setBoth, TeamSel.other, Nat.not_le.2 hc.1,
        Nat.not_le.2 hc.2, Nat.not_le.2 hg1, Nat.not_le.2 hg2]

/-- C5, witness: the full deuce → advantage → deuce round trip at the
concrete 40-40 opening state. -/
theorem C5_witness :
    addPoint cfg3
        (addPoint cfg3
          (MatchState.mk ⟨.p40, 0, 0, 0, true⟩ ⟨.p40, 0, 0, 0, false⟩) .team1)
        .team2 =
      MatchState.mk ⟨.p40, 0, 0, 0, true⟩ ⟨.p40, 0, 0, 0, false⟩ :=
  (C5_deuce_advantage_cycle cfg3
    (MatchState.mk ⟨.p40, 0, 0, 0, true⟩ ⟨.p40, 0, 0, 0, false⟩) .team1
    (by decide) (by decide) (by decide) (by decide)
    (by decide)).2.2.2.2.2.2.2.2

end Scoreboard

namespace Scoreboard

/-- Reading back the team just written by `setBoth`. -/
theorem get_setBoth_self (st : MatchState) (t : TeamSel) (a b : Team) :
    (st.setBoth t a b).get t = a := by
  cases t <;> rfl

/-- Reading back the opponent just written by `setBoth`. -/
theorem get_setBoth_other (st : MatchState) (t : TeamSel) (a b : Team) :
    (st.setBoth t a b).get t.other = b := by
  cases t <;> rfl

/-- The set-completion test, spelled as a proposition. -/
theorem setWonCheck_true_iff (n m : Nat) :
    setWonCheck n m = true ↔ 6 ≤ n ∧ (m + 2 ≤ n ∨ (n = 7 ∧ m = 5)) := by
  simp [setWonCheck]

/-- On the game-winning branches (`switchServe = true`), `pointStep` returns
exactly: points reset, one more game, opponent's points reset, serve
flipped. -/
theorem pointStep_of_switchServe (cur oth : Team)
    (h : (pointStep cur oth).switchServe = true) :
    pointStep cur oth = ⟨.p0, cur.games + 1, .p0, true⟩ := by
  cases hc : cur.points <;> cases ho : oth.points <;>
    simp [pointStep, hc, ho] at h ⊢

/-- `true` exactly on the branches of `addPoint`'s point ladder in which the
awarded team wins the game (from 40 against a sub-40 opponent, or from
advantage). -/
def gameWinStep (st : MatchState) (t : TeamSel) : Bool :=
  (pointStep (st.get t) (st.get t.other)).switchServe

/-- C3: when `addPoint` is not frozen and the point wins a game (raising the
awarded team's game count to `games + 1`), the set is won if and only if
`games + 1 >= 6` and (`games + 1 >= other.games + 2` or (`games + 1 = 7`
and `other.games = 5`)); and a set win resets both teams' `games` and
`points` to 0 alongside the `sets` increment. -/
theorem C3_game_win_set_boundary (settings : GameSettings) (st : MatchState)
    (t : TeamSel) (hn : (st.get t).sets < winThreshold settings.sets)
    (hw : gameWinStep st t = true) :
    (((addPoint settings st t).get t).sets = (st.get t).sets + 1 ↔
      (6 ≤ (st.get t).games + 1 ∧
        ((st.get t.other).games + 2 ≤ (st.get t).games + 1 ∨
          ((st.get t).games + 1 = 7 ∧ (st.get t.other).games = 5)))) ∧
    (((addPoint settings st t).get t).sets = (st.get t).sets + 1 →
      ((addPoint settings st t).get t).games = 0 ∧
      ((addPoint settings st t).get t).points = .p0 ∧
      ((addPoint settings st t).get t.other).games = 0 ∧
      ((addPoint settings st t).get t.other).points = .p0) := by
  unfold gameWinStep at hw
  have hg : ¬ winThreshold settings.sets ≤ (st.get t).sets := Nat.not_le.2 hn
  by_cases hsw :
      setWonCheck ((st.get t).games + 1) ((st.get t.other).games) = true
  · have h := (setWonCheck_true_iff ((st.get t).games + 1)
      ((st.get t.other).games)).mp hsw
    simp [addPoint, hg, pointStep_of_switchServe _ _ hw, hsw,
      get_setBoth_self, get_setBoth_other]
    omega
  · have h : ¬ (6 ≤ (st.get t).games + 1 ∧
        ((st.get t.other).games + 2 ≤ (st.get t).games + 1 ∨
          ((st.get t).games + 1 = 7 ∧ (st.get t.other).games = 5))) := by
      rw [← setWonCheck_true_iff]
      simp [hsw]
    rw [Bool.not_eq_true] at hsw
    simp [addPoint, hg, pointStep_of_switchServe _ _ hw, hsw,
      get_setBoth_self, get_setBoth_other]
    omega

/-- C3, witness: at 5 games against 4 with the awarded team at advantage,
the game win raises the count to 6 and wins the set (6 ≥ 4 + 2). -/
theorem C3_witness :
    ((addPoint cfg3
        (MatchState.mk ⟨.adv, 5, 0, 0, true⟩ ⟨.p30, 4, 0, 0, false⟩)
        .team1).get .team1).sets =
      ((MatchState.mk ⟨.adv, 5, 0, 0, true⟩
          ⟨.p30, 4, 0, 0, false⟩).get .team1).sets + 1 :=
  ((C3_game_win_set_boundary cfg3
      (MatchState.mk ⟨.adv, 5, 0, 0, true⟩ ⟨.p30, 4, 0, 0, false⟩) .team1
      (by decide) (by decide)).1).mpr (by decide)

end Scoreboard

namespace Scoreboard

/-- The awarded team wins a set "at the boundary `g` : `o`": this
`addPoint` call increments its `sets`, the game count at the moment of the
win (the ladder's `newGames`, before the reset to 0) is `g`, and the
opponent holds `o` games. -/
def winsSetAtBoundary (settings : GameSettings) (st : MatchState)
    (t : TeamSel) (g o : Nat) : Bool :=
  (((addPoint settings st t).get t).sets == (st.get t).sets + 1) &&
    ((pointStep (st.get t) (st.get t.other)).newGames == g) &&
    ((st.get t.other).games == o)

/-- Whether a `g` : `o` set-win boundary is crossed anywhere along a
sequence of `addPoint` calls starting at `st`. -/
def occursSetWinAt (settings : GameSettings) (g o : Nat) :
    MatchState → List TeamSel → Bool
  | _, [] => false
  | st, t :: ms =>
      winsSetAtBoundary settings st t g o ||
        occursSetWinAt settings g o (addPoint settings st t) ms

/-- No single `addPoint` call, from any state whatsoever, wins a set at the
7 : 6 boundary: the set-completion test `setWonCheck 7 6` is false, so the
`sets` field cannot increment there. -/
theorem winsSetAtBoundary_7_6_false (settings : GameSettings)
    (st : MatchState) (t : TeamSel) :
    winsSetAtBoundary settings st t 7 6 = false := by
  unfold winsSetAtBoundary
  by_cases hfr : winThreshold settings.sets ≤ (st.get t).sets
  · simp [addPoint, hfr]
  · by_cases h7 : (pointStep (st.get t) (st.get t.other)).newGames = 7
    · by_cases h6 : (st.get t.other).games = 6
      · have hsw : setWonCheck
            (pointStep (st.get t) (st.get t.other)).newGames
            (st.get t.other).games = false := by
          rw [h7, h6]
          decide
        simp [addPoint, hfr, get_setBoth_self, hsw]
      · simp [h6]
    · simp [h7]

/-- The 7 : 6 boundary is never crossed along any `addPoint` trace. -/
theorem occursSetWinAt_7_6_false (settings : GameSettings) (st : MatchState)
    (ms : List TeamSel) : occursSetWinAt settings 7 6 st ms = false := by
  induction ms generalizing st with
  | nil => rfl
  | cons t ms ih =>
    simp [occursSetWinAt, winsSetAtBoundary_7_6_false, ih]

/-- C4, counterexample (negation of the claim): under no configuration does
any finite sequence of `addPoint` calls — from any starting state, the
initial one included — ever win a set at the moment the winner's game count
is 7 while the opponent holds 6 games. -/
theorem C4_counterexample :
    ¬ ∃ (settings : GameSettings) (st : MatchState) (ms : List TeamSel),
        occursSetWinAt settings 7 6 st ms = true := by
  rintro ⟨settings, st, ms, h⟩
  rw [occursSetWinAt_7_6_false] at h
  exact Bool.false_ne_true h

/-- A concrete match from the initial state: the teams alternate winning
four-point games to 5 : 5, then team 1 wins two straight games, taking the
set the moment its game count reaches 7 with the opponent at 5. -/
def movesTo75 : List TeamSel :=
  List.flatten (List.replicate 5
    (List.replicate 4 TeamSel.team1 ++ List.replicate 4 TeamSel.team2)) ++
    List.replicate 8 TeamSel.team1

/-- C4, amended: a set win at the 7 : 5 boundary (not 7 : 6) is reachable
from the initial match state by a finite sequence of `addPoint` calls. -/
theorem C4_set_win_at_7_5_reachable :
    ∃ ms : List TeamSel, occursSetWinAt cfg3 7 5 initialState ms = true :=
  ⟨movesTo75, by decide⟩

end Scoreboard
